import Mathlib

/-!
Shallow embedding of the playlist HTTP server (src/server.c) and of the
spec-described diff engine (diff.c is not part of src/), together with
theorems settling the frozen claims about the continuation registry, the
patch flow, input validation, response shapes and the event pump.
-/

/-! ### Data model -/

/-- An item of the ordered collection, identified by its canonical link URI
(this is how sp_track values are produced and serialized in server.c:
sp_link_create_from_string / sp_link_create_from_track + sp_link_as_string). -/
structure SpTrack where
  uri : String
deriving DecidableEq, Repr

/-- Result of sp_link_type on a link created from a string. -/
inductive SpLinkType
  | track
  | playlist
  | other
deriving DecidableEq, Repr

/-- A link as produced by sp_link_create_from_string: its type and, when it is
a track link, the result of sp_link_as_track (which the C code checks for NULL). -/
structure SpLink where
  linkType : SpLinkType
  track : Option SpTrack
deriving DecidableEq, Repr

/-- The loaded playlist state visible to the handlers through the libspotify
accessors used in server.c (sp_link_create_from_playlist, sp_playlist_name,
sp_playlist_owner / sp_user_display_name, sp_playlist_is_collaborative,
sp_playlist_num_tracks / sp_playlist_track, sp_playlist_is_loaded,
sp_playlist_has_pending_changes). -/
structure SpPlaylist where
  uri : String
  name : String
  ownerDisplayName : String
  collaborative : Bool
  tracks : List SpTrack
  isLoaded : Bool
  hasPendingChanges : Bool
deriving DecidableEq, Repr

/-- JSON values, as handled through jansson in server.c.  Only the shapes the
code inspects are needed: json_is_string, json_is_array, json_string_value,
and the scalar output values built for responses. -/
inductive Json
  | str (s : String)
  | num (n : Int)
  | bool (b : Bool)
  | null
  | arr (elems : List Json)

/-- json_is_array. -/
def Json.isArr : Json → Bool
  | .arr _ => true
  | _ => false

/-- Outbound responses.  send_error wraps its message in a JSON object before
replying (jsonError); evhttp_send_error is the transport-level plain error with
no JSON body (raw); send_reply with a serialized JSON object is okJson; the
empty-array fast path replies with a fresh empty buffer (okEmpty). -/
inductive Response
  | jsonError (code : Nat) (message : String)
  | raw (code : Nat) (message : String)
  | okJson (code : Nat) (body : List (String × Json))
  | okEmpty

/-- Embeds send_error (server.c lines 74-85): the error message is wrapped in
a JSON object with a message field and sent with the given status code. -/
def send_error (code : Nat) (message : String) : Response :=
  .jsonError code message

/-- The JSON body a response carries, when it has one.  A jsonError body is
the envelope object with the single message field. -/
def Response.jsonBody : Response → Option (List (String × Json))
  | .jsonError _ msg => some [("message", .str msg)]
  | .okJson _ body => some body
  | _ => none

/-- Keys of the JSON object a response carries (empty for non-JSON responses). -/
def responseKeys : Response → List String
  | .okJson _ body => body.map Prod.fst
  | .jsonError _ _ => ["message"]
  | _ => []

/-! ### Continuation registry (server.c lines 52-137)

A playlist_handler couples an HTTP request with a completion callback and is
attached to the playlist callback set by register_playlist_callbacks.
playlist_dispatch removes the callbacks from the playlist and only then
invokes the stored completion callback, freeing the handler.  The two
callback structs used are playlist_state_changed_callbacks (dispatch once
the playlist is loaded) and playlist_update_in_progress_callbacks (dispatch
once a pending update reports done). -/

/-- Which libspotify callback struct a handler was registered with. -/
inductive CallbackKind
  | onStateChanged
  | onUpdateDone
deriving DecidableEq, Repr

/-- Observable steps taken by playlist_dispatch, in order:
sp_playlist_remove_callbacks first, then the stored completion callback. -/
inductive MicroAction
  | removeCallbacks
  | invokeCallback
deriving DecidableEq, Repr

/-- One registration made through register_playlist_callbacks: whether it is
still attached to the playlist callback set, how many times its completion
callback has run, and the trace of dispatch micro-steps. -/
structure Registration where
  kind : CallbackKind
  attached : Bool
  firedCount : Nat
  trace : List MicroAction
deriving DecidableEq, Repr

/-- register_playlist_callbacks (lines 94-107): the handler starts attached,
with its completion callback not yet invoked. -/
def register (kind : CallbackKind) : Registration :=
  { kind := kind, attached := true, firedCount := 0, trace := [] }

/-- playlist_dispatch (lines 109-115): detach the registration from the
playlist callback set, then invoke the completion callback once. -/
def playlist_dispatch (r : Registration) : Registration :=
  { r with
    attached := false
    firedCount := r.firedCount + 1
    trace := r.trace ++ [.removeCallbacks, .invokeCallback] }

/-- Raw notifications the backend can deliver for a playlist.  stateChanged
carries the loaded state the callback observes via sp_playlist_is_loaded;
updateInProgress carries the done flag; terminalFailure stands for the entity
reaching a terminal failure state (server.c registers no callback for any
such condition, so delivering it runs no handler code). -/
inductive PlaylistEvent
  | stateChanged (isLoaded : Bool)
  | updateInProgress (done : Bool)
  | terminalFailure
deriving DecidableEq, Repr

/-- Whether a notification satisfies the completion predicate of a
registration of the given kind: playlist_state_changed (lines 117-122)
dispatches only when the playlist is loaded; playlist_update_in_progress
(lines 128-133) dispatches only when done is true. -/
def qualifies (k : CallbackKind) (e : PlaylistEvent) : Bool :=
  match k, e with
  | .onStateChanged, .stateChanged isLoaded => isLoaded
  | .onUpdateDone, .updateInProgress done => done
  | _, _ => false

/-- Deliver one raw notification to a registration.  The callback only runs
while the registration is attached (playlist_dispatch removed it otherwise),
and it dispatches exactly when the completion predicate holds. -/
def deliverEvent (r : Registration) (e : PlaylistEvent) : Registration :=
  if r.attached && qualifies r.kind e then playlist_dispatch r else r

/-- Deliver a sequence of raw notifications in order. -/
def deliverEvents (r : Registration) (es : List PlaylistEvent) : Registration :=
  es.foldl deliverEvent r

/-! ### Registry helper lemmas -/

theorem deliverEvent_of_detached (r : Registration) (e : PlaylistEvent)
    (h : r.attached = false) : deliverEvent r e = r := by
  simp [deliverEvent, h]

theorem deliverEvents_of_detached (r : Registration) (es : List PlaylistEvent)
    (h : r.attached = false) : deliverEvents r es = r := by
  induction es with
  | nil => rfl
  | cons e es ih =>
    simp [deliverEvents] at ih ⊢
    rw [deliverEvent_of_detached r e h, ih]

theorem deliverEvent_of_not_qualifies (r : Registration) (e : PlaylistEvent)
    (h : qualifies r.kind e = false) : deliverEvent r e = r := by
  simp [deliverEvent, h]

theorem deliverEvents_of_no_qualifying (r : Registration) (es : List PlaylistEvent)
    (h : ∀ e ∈ es, qualifies r.kind e = false) : deliverEvents r es = r := by
  induction es with
  | nil => rfl
  | cons e es ih =>
    simp [deliverEvents] at ih ⊢
    rw [deliverEvent_of_not_qualifies r e (h e (by simp)),
        ih (fun e he => h e (by simp [he]))]

/-! ### Inbound requests and input parsing -/

/-- The pieces of an inbound HTTP request the mutating handlers inspect:
the index and count query fields (evhttp_parse_query / evhttp_find_header),
the input buffer length (evbuffer_get_length) and the result of json_loads on
the body (none when jansson fails to parse it). -/
structure HttpRequest where
  queryIndex : Option String
  queryCount : Option String
  bodyLen : Nat
  parsedBody : Option Json

/-- Character-list core of the strncmp prefix tests below. -/
def strncmpPrefixEq : List Char → List Char → Bool
  | [], _ => true
  | _ :: _, [] => false
  | c :: cs, d :: ds => c == d && strncmpPrefixEq cs ds

/-- Models the strncmp(s, p, strlen(p)) == 0 tests of handle_request: the
comparison stops after strlen(p) characters, so it succeeds exactly when p
is a prefix of s. -/
def hasPrefixStr (p s : String) : Bool :=
  strncmpPrefixEq p.toList s.toList

/-- Value of a nonempty decimal digit prefix. -/
def digitsToNat (ds : List Char) : Nat :=
  ds.foldl (fun a c => a * 10 + (c.toNat - 48)) 0

/-- Reads a leading run of decimal digits; fails when there is none. -/
def readDigits (cs : List Char) : Option Nat :=
  let ds := cs.takeWhile Char.isDigit
  if ds.isEmpty then none else some (digitsToNat ds)

/-- Core of the %d conversion: an optional sign followed by digits. -/
def scanIntChars : List Char → Option Int
  | '-' :: rest => (readDigits rest).map (fun n => -(n : Int))
  | '+' :: rest => (readDigits rest).map (fun n => (n : Int))
  | rest => (readDigits rest).map (fun n => (n : Int))

/-- Models sscanf(s, "%d", &n): skip leading whitespace, then an optional
sign and at least one digit; the handlers treat a return value of 0 or EOF
(no conversion performed) as failure. -/
def scanInt (s : String) : Option Int :=
  scanIntChars (s.toList.dropWhile
    (fun c => c == ' ' || c == '\t' || c == '\n' || c == '\r'))

/-! ### Diff engine

The edit-script computation lives in diff.c, which is not part of src/
(server.c only calls diff_playlist_tracks, diff_playlist_tracks_apply and
diff_output_stdout through diff.h), so it is modelled from the spec here. -/

/-- Modelled from the spec: one primitive operation of an Edit Script, either
Remove(start_index, count) or Insert(start_index, items), with indices
expressed against the pre-application current sequence. -/
inductive EditOp
  | insert (idx : Nat) (items : List SpTrack)
  | remove (idx : Nat) (count : Nat)
deriving DecidableEq, Repr

/-- Modelled from the spec: a longest common subsequence of two item
sequences, with ties broken deterministically. -/
def lcs : List SpTrack → List SpTrack → List SpTrack
  | [], _ => []
  | _ :: _, [] => []
  | a :: as, b :: bs =>
    if a = b then a :: lcs as bs
    else
      let viaDropA := lcs as (b :: bs)
      let viaDropB := lcs (a :: as) bs
      if viaDropA.length ≥ viaDropB.length then viaDropA else viaDropB
termination_by x y => x.length + y.length

/-- Coalesces a removal of the item at position i with an immediately
following removal, so removed runs become one bulk Remove. -/
def mergeRemove (i : Nat) (ops : List EditOp) : List EditOp :=
  match ops with
  | .remove j c :: rest =>
    if j = i + 1 then .remove i (c + 1) :: rest else .remove i 1 :: ops
  | _ => .remove i 1 :: ops

/-- Coalesces an insertion before position i with an immediately following
insertion at the same position, so inserted runs become one bulk Insert. -/
def mergeInsert (i : Nat) (b : SpTrack) (ops : List EditOp) : List EditOp :=
  match ops with
  | .insert j items :: rest =>
    if j = i then .insert i (b :: items) :: rest else .insert i [b] :: ops
  | _ => .insert i [b] :: ops

/-- Modelled from the spec: the LCS-guided edit-script computation, walking
the current sequence (positions counted from i) and the desired sequence,
keeping common items and emitting coalesced bulk Remove/Insert operations. -/
def diffAt : Nat → List SpTrack → List SpTrack → List EditOp
  | _, [], [] => []
  | i, [], ds => [.insert i ds]
  | i, c :: cs, [] => [.remove i (c :: cs).length]
  | i, a :: as, b :: bs =>
    if a = b then diffAt (i + 1) as bs
    else if (lcs as (b :: bs)).length ≥ (lcs (a :: as) bs).length then
      mergeRemove i (diffAt (i + 1) as (b :: bs))
    else
      mergeInsert i b (diffAt i (a :: as) bs)
termination_by _ x y => x.length + y.length

/-- Modelled from the spec: compute(current, desired), the full edit script
transforming the current sequence into the desired one. -/
def computeEditScript (current desired : List SpTrack) : List EditOp :=
  diffAt 0 current desired

/-- Backend mutation primitives reached by the handlers: the two bulk track
operations of server.c, and the script application performed by the external
diff_playlist_tracks_apply routine on behalf of the patch handler. -/
inductive BackendCall
  | addTracks (tracks : List SpTrack) (index : Int)
  | removeTracks (indices : List Int)
  | applyDiff (script : List EditOp)

/-- Result of a libspotify call: SP_ERROR_OK or a specific error, whose
message sp_error_message provides for send_error_sp. -/
inductive SpError
  | ok
  | err (message : String)
deriving DecidableEq, Repr

/-- The continuation function stored in a playlist_handler (the
handle_playlist_fn values that appear in server.c). -/
inductive ContinuationFn
  | getPlaylist
  | getPlaylistCollaborative
  | putPlaylistAddTracks
  | putPlaylistRemoveTracks
  | putPlaylistPatch
  | notImplemented
deriving DecidableEq, Repr

/-- Net effect of running a mutating handler: the response it sent (if it
responded immediately), the backend mutation primitives it invoked, and the
continuation it left registered on the playlist update-done callback. -/
structure HandlerResult where
  response : Option Response
  calls : List BackendCall
  registration : Option ContinuationFn

/-- The track-collection loop shared verbatim by put_playlist_add_tracks
(lines 286-312) and put_playlist_patch (lines 439-465): entries that are not
JSON strings, do not parse as links, are not track links, or yield no track
are skipped; the rest are collected in order. -/
def collectValidTracks (resolve : String → Option SpLink) : List Json → List SpTrack
  | [] => []
  | item :: rest =>
    match item with
    | .str s =>
      (match resolve s with
       | none => collectValidTracks resolve rest
       | some link =>
         if link.linkType = .track then
           match link.track with
           | none => collectValidTracks resolve rest
           | some t => t :: collectValidTracks resolve rest
         else collectValidTracks resolve rest)
    | _ => collectValidTracks resolve rest

/-- The validity test applied to one entry of the items array, matching one
iteration of the collection loop. -/
def entryTrack (resolve : String → Option SpLink) : Json → Option SpTrack
  | .str s =>
    (match resolve s with
     | none => none
     | some link => if link.linkType = .track then link.track else none)
  | _ => none

/-- Embeds put_playlist_add_tracks (lines 225-339).  The backend is abstracted
by the link resolution function and by the outcome sp_playlist_add_tracks
reports for the submitted tracks and index.  On success the handler leaves
the update-done continuation (get_playlist) registered and does not respond
yet; on a backend error the callbacks registered just before the call are
removed again and the backend error message is returned. -/
def put_playlist_add_tracks (resolve : String → Option SpLink)
    (addResult : List SpTrack → Int → SpError)
    (req : HttpRequest) : HandlerResult :=
  match req.queryIndex.bind scanInt with
  | none =>
    { response := some (send_error 400 "Bad parameter: index must be numeric")
      calls := [], registration := none }
  | some index =>
    if req.bodyLen = 0 then
      { response := some (send_error 400 "No body")
        calls := [], registration := none }
    else
      match req.parsedBody with
      | none =>
        { response := some (send_error 400 "Unable to parse JSON")
          calls := [], registration := none }
      | some json =>
        match json with
        | .arr items =>
          if items.length = 0 then
            { response := some .okEmpty, calls := [], registration := none }
          else
            match collectValidTracks resolve items with
            | [] =>
              { response := some (send_error 400 "No valid tracks")
                calls := [], registration := none }
            | t :: ts =>
              match addResult (t :: ts) index with
              | .ok =>
                { response := none
                  calls := [.addTracks (t :: ts) index]
                  registration := some .getPlaylist }
              | .err message =>
                { response := some (send_error 400 message)
                  calls := [.addTracks (t :: ts) index]
                  registration := none }
        | _ =>
          { response := some (send_error 400 "Not valid JSON array")
            calls := [], registration := none }

/-- The index list put_playlist_remove_tracks builds: index, index+1, ...,
index+count-1. -/
def removeIndices (index : Int) (count : Nat) : List Int :=
  (List.range count).map (fun i => index + i)

/-- Embeds put_playlist_remove_tracks (lines 341-390).  The index must be
numeric and nonnegative, the count numeric and at least one; then
sp_playlist_remove_tracks is invoked on the contiguous index range, with the
update-done continuation registered beforehand and removed again on error. -/
def put_playlist_remove_tracks (removeResult : List Int → SpError)
    (req : HttpRequest) : HandlerResult :=
  match req.queryIndex.bind scanInt with
  | none =>
    { response := some (send_error 400 "Bad parameter: index must be numeric")
      calls := [], registration := none }
  | some index =>
    if index < 0 then
      { response := some (send_error 400 "Bad parameter: index must be numeric")
        calls := [], registration := none }
    else
      match req.queryCount.bind scanInt with
      | none =>
        { response := some (send_error 400 "Bad parameter: count must be numeric and positive")
          calls := [], registration := none }
      | some count =>
        if count < 1 then
          { response := some (send_error 400 "Bad parameter: count must be numeric and positive")
            calls := [], registration := none }
        else
          match removeResult (removeIndices index count.toNat) with
          | .ok =>
            { response := none
              calls := [.removeTracks (removeIndices index count.toNat)]
              registration := some .getPlaylist }
          | .err message =>
            { response := some (send_error 400 message)
              calls := [.removeTracks (removeIndices index count.toNat)]
              registration := none }

/-! ### Read handler and patch flow -/

/-- Embeds get_playlist (lines 149-206): builds the JSON object with the
playlist URI, title, creator display name, collaborative flag and the array
of track link URIs in playlist order, stored under the key named tracks, and
replies 200 OK with it. -/
def get_playlist (p : SpPlaylist) : Response :=
  .okJson 200
    [("uri", .str p.uri),
     ("title", .str p.name),
     ("creator", .str p.ownerDisplayName),
     ("collaborative", .bool p.collaborative),
     ("tracks", .arr (p.tracks.map (fun t => .str t.uri)))]

/-- Embeds put_playlist_patch (lines 392-515).  Input validation mirrors the
add handler minus the index.  diffFails and applyFails abstract the svn error
results of the external diff_playlist_tracks and diff_playlist_tracks_apply
calls; p is the playlist state when the diff is computed and pAfter the state
once the apply call has returned (concurrent backend mutation may have
changed it).  When the playlist still has pending changes the handler
registers get_playlist on the update-done callback and returns without
responding; otherwise it responds at once with the current contents. -/
def put_playlist_patch (resolve : String → Option SpLink)
    (diffFails applyFails : Bool)
    (p pAfter : SpPlaylist) (req : HttpRequest) : HandlerResult :=
  if req.bodyLen = 0 then
    { response := some (send_error 400 "No body")
      calls := [], registration := none }
  else
    match req.parsedBody with
    | none =>
      { response := some (send_error 400 "Unable to parse JSON")
        calls := [], registration := none }
    | some json =>
      match json with
      | .arr items =>
        if items.length = 0 then
          { response := some .okEmpty, calls := [], registration := none }
        else
          match collectValidTracks resolve items with
          | [] =>
            { response := some (send_error 400 "No valid tracks")
              calls := [], registration := none }
          | t :: ts =>
            if diffFails then
              { response := some (send_error 400 "Search failed")
                calls := [], registration := none }
            else
              let script := computeEditScript p.tracks (t :: ts)
              if applyFails then
                { response := some (send_error 400 "Could not apply diff")
                  calls := [.applyDiff script], registration := none }
              else if pAfter.hasPendingChanges then
                { response := none
                  calls := [.applyDiff script]
                  registration := some .getPlaylist }
              else
                { response := some (get_playlist pAfter)
                  calls := [.applyDiff script], registration := none }
      | _ =>
        { response := some (send_error 400 "Not valid JSON array")
          calls := [], registration := none }

/-- What the registered continuation does when the update-done notification
dispatches it (playlist_update_in_progress with done, then playlist_dispatch
invoking the stored callback): every mutating flow in server.c registers
get_playlist, which replies with the playlist contents as they are at that
moment.  The other handle_playlist_fn values consume the request again and
are never registered for settlement by the mutating flows. -/
def settleContinuation (k : ContinuationFn) (pNow : SpPlaylist) : Option Response :=
  match k with
  | .getPlaylist => some (get_playlist pNow)
  | _ => none

/-! ### Request router (handle_request, lines 518-641) -/

/-- The HTTP methods distinguished by handle_request; delete and head stand
for the commands that fall into the default 501 branch. -/
inductive HttpMethod
  | get
  | put
  | post
  | delete
  | head
deriving DecidableEq, Repr

/-- The method switch at the top of handle_request: only GET, PUT and POST
proceed. -/
def methodAllowed : HttpMethod → Bool
  | .get => true
  | .put => true
  | .post => true
  | _ => false

/-- How a request ends at the router: an immediate response, an immediate
handler invocation (playlist loaded), a registration on the
playlist_state_changed callbacks awaiting load, or undefined behavior (the
PUT/POST action dispatch calls strncmp on a NULL action pointer). -/
inductive RequestOutcome
  | respond (r : Response)
  | invokeNow (k : ContinuationFn)
  | awaitLoad (k : ContinuationFn)
  | crash

/-- The action dispatch switch (lines 600-631): GET with no action serves the
whole playlist, a collaborative prefix serves the collaborative flag; PUT and
POST select the mutating handler by action prefix (add, remove, patch) and
otherwise keep the not_implemented default.  A PUT or POST with no action
token reaches strncmp(NULL, ...), which is undefined behavior in the C
source. -/
def selectCallback (method : HttpMethod) (action : Option String) :
    Option ContinuationFn :=
  match method with
  | .get =>
    some
      (match action with
       | none => .getPlaylist
       | some a =>
         if hasPrefixStr "collaborative" a then .getPlaylistCollaborative
         else .notImplemented)
  | .put | .post =>
    (match action with
     | none => none
     | some a =>
       some
         (if hasPrefixStr "add" a then .putPlaylistAddTracks
          else if hasPrefixStr "remove" a then .putPlaylistRemoveTracks
          else if hasPrefixStr "patch" a then .putPlaylistPatch
          else .notImplemented))
  | _ => some .notImplemented

/-- The backend facts handle_request consults while routing: the type of the
link a URI token resolves to (none when sp_link_create_from_string returns
NULL), whether sp_playlist_create yields a playlist for it, and whether that
playlist is loaded at dispatch time. -/
structure RouterEnv where
  linkType : String → Option SpLinkType
  playlistFound : Bool
  playlistLoaded : Bool

/-- Embeds handle_request (lines 518-641).  tokens is the decoded request
path split on slashes (strtok, so no empty tokens).  Unknown methods, a
missing or wrong first path segment, and the unimplemented playlist-create
route answer through evhttp_send_error (no JSON envelope); link resolution
failures answer through send_error; otherwise the selected handler is either
invoked immediately (playlist loaded) or parked on the state-changed
callbacks until the playlist loads. -/
def handle_request (env : RouterEnv) (method : HttpMethod)
    (tokens : List String) : RequestOutcome :=
  if methodAllowed method then
    match tokens with
    | [] => .respond (.raw 400 "Bad Request")
    | entity :: rest =>
      if hasPrefixStr "playlist" entity then
        match rest with
        | [] =>
          (match method with
           | .put | .post => .respond (.raw 500 "Not Implemented")
           | _ => .respond (send_error 400 "Bad Request"))
        | playlistUri :: rest2 =>
          (match env.linkType playlistUri with
           | none => .respond (send_error 404 "Link not found")
           | some lt =>
             if lt = .playlist then
               if env.playlistFound then
                 match selectCallback method rest2.head? with
                 | none => .crash
                 | some k =>
                   if env.playlistLoaded then .invokeNow k else .awaitLoad k
               else .respond (send_error 404 "Playlist not found")
             else .respond (send_error 400 "Not a playlist link"))
      else .respond (.raw 400 "Bad Request")
  else .respond (.raw 501 "Not Implemented")

/-- Embeds the not_implemented handler (lines 142-146): it answers through
evhttp_send_error, without the JSON envelope. -/
def not_implemented : Response :=
  .raw 500 "Not Implemented"

/-! ### Event pump (process_events, lines 700-714) -/

/-- One firing of the pump timer, abstracted over the successive timeout
values sp_session_process_events writes on each call: the timer is removed,
then the session is pumped repeatedly while the reported timeout stays zero.
Returns how many pump calls ran and the first nonzero reported timeout, or
none when the report sequence runs out while still demanding immediate work. -/
def pumpUntilTimeout : List Nat → Option (Nat × Nat)
  | [] => none
  | t :: ts =>
    if t = 0 then (pumpUntilTimeout ts).map (fun p => (p.1 + 1, p.2))
    else some (1, t)

/-- Embeds process_events: after draining, next_timeout is set to the
reported delay (milliseconds split into seconds and microseconds) and the
timer is re-armed with it.  The result is the number of pump calls, tv_sec
and tv_usec. -/
def process_events (reports : List Nat) : Option (Nat × Nat × Nat) :=
  (pumpUntilTimeout reports).map
    (fun p => (p.1, p.2 / 1000, p.2 % 1000 * 1000))

/-! ### Claim theorems: continuation registry -/

/-- Helper: delivering any notification stream to a freshly attached
registration either leaves it untouched or dispatches it exactly once. -/
theorem deliverEvents_fresh_spec (es : List PlaylistEvent) :
    ∀ r : Registration, r.attached = true → r.firedCount = 0 → r.trace = [] →
      (deliverEvents r es).firedCount ≤ 1 ∧
      ((∃ e ∈ es, qualifies r.kind e = true) →
        deliverEvents r es =
          { r with attached := false, firedCount := 1,
                   trace := [.removeCallbacks, .invokeCallback] }) := by
  induction es with
  | nil =>
    intro r ha hf _
    exact ⟨by simp [deliverEvents, hf],
           by rintro ⟨e, he, -⟩; cases he⟩
  | cons e es ih =>
    intro r ha hf ht
    have hstep : deliverEvents r (e :: es) = deliverEvents (deliverEvent r e) es := rfl
    by_cases hq : qualifies r.kind e = true
    · have hde : deliverEvent r e = playlist_dispatch r := by
        simp [deliverEvent, ha, hq]
      have hrest : deliverEvents (playlist_dispatch r) es = playlist_dispatch r :=
        deliverEvents_of_detached _ es rfl
      have hfinal : deliverEvents r (e :: es) =
          { r with attached := false, firedCount := 1,
                   trace := [.removeCallbacks, .invokeCallback] } := by
        rw [hstep, hde, hrest]
        simp [playlist_dispatch, hf, ht]
      refine ⟨by rw [hfinal], fun _ => hfinal⟩
    · have hq' : qualifies r.kind e = false := by
        cases h : qualifies r.kind e
        · rfl
        · exact absurd h hq
      have hde : deliverEvent r e = r := deliverEvent_of_not_qualifies r e hq'
      rw [hstep, hde]
      obtain ⟨h1, h2⟩ := ih r ha hf ht
      refine ⟨h1, ?_⟩
      rintro ⟨e', he', hqe'⟩
      rcases List.mem_cons.mp he' with rfl | hmem
      · exact absurd hqe' hq
      · exact h2 ⟨e', hmem, hqe'⟩

/-- C1: a registration attached through register_playlist_callbacks fires its
completion handler at most once; on the first qualifying notification the
dispatch removes the callbacks before invoking the handler, so even when the
qualifying event (loaded / update done) is delivered repeatedly the handler
runs exactly once, detached, with the removal preceding the invocation in
the dispatch trace. -/
theorem c1_on_ready_fires_at_most_once (k : CallbackKind) (es : List PlaylistEvent) :
    (deliverEvents (register k) es).firedCount ≤ 1 ∧
    ((∃ e ∈ es, qualifies k e = true) →
      (deliverEvents (register k) es).firedCount = 1 ∧
      (deliverEvents (register k) es).attached = false ∧
      (deliverEvents (register k) es).trace = [.removeCallbacks, .invokeCallback]) := by
  obtain ⟨h1, h2⟩ := deliverEvents_fresh_spec es (register k) rfl rfl rfl
  refine ⟨h1, fun hex => ?_⟩
  have hq : ∃ e ∈ es, qualifies (register k).kind e = true := by
    simpa [register] using hex
  rw [h2 hq]
  exact ⟨rfl, rfl, rfl⟩

/-- Witness for C1 at a concrete input: two loaded notifications in a row
still fire the handler exactly once. -/
theorem c1_witness :
    (∃ e ∈ [PlaylistEvent.stateChanged true, PlaylistEvent.stateChanged true],
      qualifies CallbackKind.onStateChanged e = true) ∧
    (deliverEvents (register .onStateChanged)
      [PlaylistEvent.stateChanged true, PlaylistEvent.stateChanged true]).firedCount = 1 :=
  ⟨by decide,
    ((c1_on_ready_fires_at_most_once .onStateChanged
      [PlaylistEvent.stateChanged true, PlaylistEvent.stateChanged true]).2
      (by decide)).1⟩

/-- C5 counterexample: delivering a not-loaded state change followed by a
terminal failure to a pending registration neither detaches it nor invokes
its handler — the code has no failure path at all (playlist_state_changed
returns unless the playlist is loaded, and no callback is registered for any
failure condition), so the registration leaks, contrary to the claim that a
failure indicator is delivered. -/
theorem c5_counterexample :
    (deliverEvents (register .onStateChanged)
      [PlaylistEvent.stateChanged false, PlaylistEvent.terminalFailure]).attached = true ∧
    (deliverEvents (register .onStateChanged)
      [PlaylistEvent.stateChanged false, PlaylistEvent.terminalFailure]).firedCount = 0 := by
  decide

/-- C5 (amended): on any notification stream with no qualifying event — in
particular streams consisting of terminal failures and not-loaded state
changes — the registration stays attached and its handler never runs; the
registration is leaked rather than completed with a failure indicator. -/
theorem c5_no_dispatch_without_qualifying (k : CallbackKind)
    (es : List PlaylistEvent) (h : ∀ e ∈ es, qualifies k e = false) :
    (deliverEvents (register k) es).attached = true ∧
    (deliverEvents (register k) es).firedCount = 0 := by
  have heq : deliverEvents (register k) es = register k :=
    deliverEvents_of_no_qualifying _ es (by simpa [register] using h)
  rw [heq]
  exact ⟨rfl, rfl⟩

/-- Witness for C5 (amended) at a concrete input. -/
theorem c5_witness :
    (∀ e ∈ [PlaylistEvent.stateChanged false, PlaylistEvent.terminalFailure],
      qualifies CallbackKind.onStateChanged e = false) ∧
    (deliverEvents (register .onStateChanged)
      [PlaylistEvent.stateChanged false, PlaylistEvent.terminalFailure]).firedCount = 0 :=
  ⟨by decide,
    (c5_no_dispatch_without_qualifying .onStateChanged
      [PlaylistEvent.stateChanged false, PlaylistEvent.terminalFailure] (by decide)).2⟩

/-- C4: a request whose playlist is loaded at dispatch time is handled
immediately and nothing is registered; a request whose playlist is unloaded
is parked on the state-changed callbacks, and its handler cannot run (so the
request cannot be answered) unless the stream contains a loaded
notification. -/
theorem c4_load_gating (env : RouterEnv) (m : HttpMethod) (toks : List String) :
    (∀ k, handle_request env m toks = .invokeNow k → env.playlistLoaded = true) ∧
    (∀ k, handle_request env m toks = .awaitLoad k →
      env.playlistLoaded = false ∧
      ∀ es, (deliverEvents (register .onStateChanged) es).firedCount ≠ 0 →
        PlaylistEvent.stateChanged true ∈ es) := by
  constructor
  · intro k h
    unfold handle_request at h
    repeat' split at h
    all_goals simp_all
  · intro k h
    have hload : env.playlistLoaded = false := by
      unfold handle_request at h
      repeat' split at h
      all_goals simp_all
    refine ⟨hload, fun es hfired => ?_⟩
    by_contra hmem
    apply hfired
    rw [deliverEvents_of_no_qualifying]
    · rfl
    · intro e he
      cases e with
      | stateChanged isLoaded =>
        cases isLoaded
        · simp [register, qualifies]
        · exact absurd he hmem
      | updateInProgress done => simp [register, qualifies]
      | terminalFailure => simp [register, qualifies]

/-- Witness for C4 at a concrete input: an unloaded playlist parks the
request, and the parked handler needs a loaded notification to run. -/
theorem c4_witness :
    RouterEnv.playlistLoaded ⟨fun _ => some .playlist, true, false⟩ = false ∧
    PlaylistEvent.stateChanged true ∈ [PlaylistEvent.stateChanged true] := by
  have h := (c4_load_gating ⟨fun _ => some .playlist, true, false⟩ .get
    ["playlist", "x"]).2 .getPlaylist rfl
  exact ⟨h.1, h.2 [PlaylistEvent.stateChanged true] (by decide)⟩

/-! ### Claim theorems: event pump -/

/-- Helper: the pump loop runs once per zero report and stops at the first
nonzero reported timeout. -/
theorem pumpUntilTimeout_spec :
    ∀ (reports : List Nat) (k t : Nat),
      reports[k]? = some t → t ≠ 0 → reports.take k = List.replicate k 0 →
      pumpUntilTimeout reports = some (k + 1, t) := by
  intro reports
  induction reports with
  | nil => intro k t hk _ _; simp at hk
  | cons r rs ih =>
    intro k t hk ht hzero
    cases k with
    | zero =>
      simp at hk
      subst hk
      simp [pumpUntilTimeout, ht]
    | succ k =>
      have h0 : r = 0 ∧ rs.take k = List.replicate k 0 := by
        simpa [List.replicate] using hzero
      obtain ⟨rfl, htk⟩ := h0
      have hrec := ih k t (by simpa using hk) ht htk
      simp [pumpUntilTimeout, hrec]

/-- C9: each firing of the pump timer calls sp_session_process_events once
per zero-reported timeout, stopping at the first nonzero report, and re-arms
the timer with next_timeout set from that report — tv_sec and tv_usec
together encode exactly the backend-reported delay in milliseconds. -/
theorem c9_event_pump (reports : List Nat) (k t : Nat)
    (hk : reports[k]? = some t) (ht : t ≠ 0)
    (hzero : reports.take k = List.replicate k 0) :
    process_events reports = some (k + 1, t / 1000, t % 1000 * 1000) ∧
    (t / 1000) * 1000000 + t % 1000 * 1000 = t * 1000 := by
  constructor
  · rw [process_events, pumpUntilTimeout_spec reports k t hk ht hzero]
    rfl
  · omega

/-- Witness for C9 at a concrete input: reports 0, 0, 50 give three pump
calls and a rescheduled delay of 0 s and 50000 us. -/
theorem c9_witness :
    ([0, 0, 50] : List Nat)[2]? = some 50 ∧
    process_events [0, 0, 50] = some (3, 0, 50000) := by
  refine ⟨rfl, ?_⟩
  have h := c9_event_pump [0, 0, 50] 2 50 rfl (by decide) (by decide)
  exact h.1

/-! ### Claim theorems: input validation -/

/-- The input conditions put_playlist_add_tracks rejects before touching the
backend: missing or non-numeric index, missing body, unparseable JSON, or a
payload that is not a JSON array. -/
def addInputRejected (req : HttpRequest) : Bool :=
  (req.queryIndex.bind scanInt).isNone ||
  req.bodyLen == 0 ||
  (match req.parsedBody with
   | none => true
   | some j => !j.isArr)

/-- The input conditions put_playlist_remove_tracks rejects: missing,
non-numeric or negative index; missing, non-numeric or non-positive count. -/
def removeInputRejected (req : HttpRequest) : Bool :=
  (match req.queryIndex.bind scanInt with
   | none => true
   | some i => decide (i < 0)) ||
  (match req.queryCount.bind scanInt with
   | none => true
   | some c => decide (c < 1))

/-- The input conditions put_playlist_patch rejects before touching the
backend: missing body, unparseable JSON, or a non-array payload. -/
def patchInputRejected (req : HttpRequest) : Bool :=
  req.bodyLen == 0 ||
  (match req.parsedBody with
   | none => true
   | some j => !j.isArr)

/-- Whether a handler responded immediately with a 400 error wrapped in the
JSON message envelope. -/
def isInputError (r : HandlerResult) : Bool :=
  match r.response with
  | some (.jsonError 400 _) => true
  | _ => false

/-- C6: every mutating request with rejected input (missing body,
non-numeric index, malformed JSON, or a payload that is not a JSON array) is
answered immediately with an error and causes no backend mutation call and
no registration, in all three mutating handlers. -/
theorem c6_rejected_input_no_mutation
    (resolve : String → Option SpLink) (addRes : List SpTrack → Int → SpError)
    (remRes : List Int → SpError) (diffFails applyFails : Bool)
    (p pAfter : SpPlaylist) (req : HttpRequest) :
    (addInputRejected req = true →
      isInputError (put_playlist_add_tracks resolve addRes req) = true ∧
      (put_playlist_add_tracks resolve addRes req).calls = [] ∧
      (put_playlist_add_tracks resolve addRes req).registration = none) ∧
    (removeInputRejected req = true →
      isInputError (put_playlist_remove_tracks remRes req) = true ∧
      (put_playlist_remove_tracks remRes req).calls = [] ∧
      (put_playlist_remove_tracks remRes req).registration = none) ∧
    (patchInputRejected req = true →
      isInputError (put_playlist_patch resolve diffFails applyFails p pAfter req) = true ∧
      (put_playlist_patch resolve diffFails applyFails p pAfter req).calls = [] ∧
      (put_playlist_patch resolve diffFails applyFails p pAfter req).registration = none) := by
  refine ⟨?_, ?_, ?_⟩
  · intro h
    cases hidx : req.queryIndex.bind scanInt with
    | none => simp [put_playlist_add_tracks, hidx, isInputError, send_error]
    | some index =>
      by_cases hb : req.bodyLen = 0
      · simp [put_playlist_add_tracks, hidx, hb, isInputError, send_error]
      · cases hp : req.parsedBody with
        | none => simp [put_playlist_add_tracks, hidx, hb, hp, isInputError, send_error]
        | some j =>
          cases j with
          | arr items => simp [addInputRejected, hidx, hb, hp, Json.isArr] at h
          | str s => simp [put_playlist_add_tracks, hidx, hb, hp, isInputError, send_error]
          | num n => simp [put_playlist_add_tracks, hidx, hb, hp, isInputError, send_error]
          | bool b => simp [put_playlist_add_tracks, hidx, hb, hp, isInputError, send_error]
          | null => simp [put_playlist_add_tracks, hidx, hb, hp, isInputError, send_error]
  · intro h
    cases hidx : req.queryIndex.bind scanInt with
    | none => simp [put_playlist_remove_tracks, hidx, isInputError, send_error]
    | some index =>
      by_cases hi : index < 0
      · simp [put_playlist_remove_tracks, hidx, hi, isInputError, send_error]
      · cases hcnt : req.queryCount.bind scanInt with
        | none => simp [put_playlist_remove_tracks, hidx, hi, hcnt, isInputError, send_error]
        | some count =>
          by_cases hc : count < 1
          · simp [put_playlist_remove_tracks, hidx, hi, hcnt, hc, isInputError, send_error]
          · simp [removeInputRejected, hidx, hcnt, hi, hc] at h
  · intro h
    by_cases hb : req.bodyLen = 0
    · simp [put_playlist_patch, hb, isInputError, send_error]
    · cases hp : req.parsedBody with
      | none => simp [put_playlist_patch, hb, hp, isInputError, send_error]
      | some j =>
        cases j with
        | arr items => simp [patchInputRejected, hb, hp, Json.isArr] at h
        | str s => simp [put_playlist_patch, hb, hp, isInputError, send_error]
        | num n => simp [put_playlist_patch, hb, hp, isInputError, send_error]
        | bool b => simp [put_playlist_patch, hb, hp, isInputError, send_error]
        | null => simp [put_playlist_patch, hb, hp, isInputError, send_error]

/-- A sample playlist used by concrete witnesses and counterexamples. -/
def samplePlaylist : SpPlaylist :=
  { uri := "spotify:playlist:p", name := "Test", ownerDisplayName := "owner",
    collaborative := false, tracks := [⟨"spotify:track:bbb"⟩],
    isLoaded := true, hasPendingChanges := false }

/-- A sample link resolution used by concrete witnesses: the two track URIs
resolve to track links, everything else fails to parse. -/
def sampleResolve : String → Option SpLink := fun s =>
  if s = "spotify:track:aaa" then some ⟨.track, some ⟨"spotify:track:aaa"⟩⟩
  else if s = "spotify:track:good" then some ⟨.track, some ⟨"spotify:track:good"⟩⟩
  else none

/-- Witness for C6 at concrete inputs: a non-numeric index is rejected by
the add and remove handlers with no backend call, and a missing body is
rejected by the patch handler with no backend call. -/
theorem c6_witness :
    addInputRejected ⟨some "abc", none, 5, some (.arr [])⟩ = true ∧
    isInputError (put_playlist_add_tracks sampleResolve (fun _ _ => .ok)
      ⟨some "abc", none, 5, some (.arr [])⟩) = true ∧
    (put_playlist_add_tracks sampleResolve (fun _ _ => .ok)
      ⟨some "abc", none, 5, some (.arr [])⟩).calls = [] ∧
    patchInputRejected ⟨none, none, 0, none⟩ = true ∧
    (put_playlist_patch sampleResolve false false samplePlaylist samplePlaylist
      ⟨none, none, 0, none⟩).calls = [] := by
  have ha := (c6_rejected_input_no_mutation sampleResolve (fun _ _ => .ok)
    (fun _ => .ok) false false samplePlaylist samplePlaylist
    ⟨some "abc", none, 5, some (.arr [])⟩).1 (by rfl)
  have hp := (c6_rejected_input_no_mutation sampleResolve (fun _ _ => .ok)
    (fun _ => .ok) false false samplePlaylist samplePlaylist
    ⟨none, none, 0, none⟩).2.2 (by rfl)
  exact ⟨by rfl, ha.1, ha.2.1, by rfl, hp.2.1⟩

/-- Helper: the track-collection loop keeps exactly the entries that pass
the per-entry validity test, in order, skipping the rest. -/
theorem collectValidTracks_eq_filterMap (resolve : String → Option SpLink)
    (items : List Json) :
    collectValidTracks resolve items = items.filterMap (entryTrack resolve) := by
  induction items with
  | nil => rfl
  | cons item rest ih =>
    cases item with
    | str s =>
      cases hr : resolve s with
      | none => simp [collectValidTracks, entryTrack, hr, ih]
      | some link =>
        by_cases hl : link.linkType = .track
        · cases ht : link.track with
          | none => simp [collectValidTracks, entryTrack, hr, hl, ht, ih]
          | some t => simp [collectValidTracks, entryTrack, hr, hl, ht, ih]
        · simp [collectValidTracks, entryTrack, hr, hl, ih]
    | num n => simp [collectValidTracks, entryTrack, ih]
    | bool b => simp [collectValidTracks, entryTrack, ih]
    | null => simp [collectValidTracks, entryTrack, ih]
    | arr elems => simp [collectValidTracks, entryTrack, ih]

/-- C10: in the add and patch handlers, items-array entries that are not
strings, do not parse as links, are not track links, or yield no track are
silently skipped (the collected tracks are exactly the valid entries, in
order); the request is rejected with the no-valid-tracks error, without any
backend call, exactly when all entries are invalid and the array is
nonempty; an empty items array is answered OK immediately with no backend
call; and when at least one entry is valid the operation proceeds with
precisely the valid tracks. -/
theorem c10_invalid_entries_skipped
    (resolve : String → Option SpLink) (addRes : List SpTrack → Int → SpError)
    (diffFails applyFails : Bool) (p pAfter : SpPlaylist)
    (req : HttpRequest) (items : List Json) (index : Int)
    (hbody : req.bodyLen ≠ 0) (hparse : req.parsedBody = some (.arr items)) :
    collectValidTracks resolve items = items.filterMap (entryTrack resolve) ∧
    (req.queryIndex.bind scanInt = some index →
      (items = [] → put_playlist_add_tracks resolve addRes req =
        { response := some .okEmpty, calls := [], registration := none }) ∧
      (items ≠ [] → collectValidTracks resolve items = [] →
        put_playlist_add_tracks resolve addRes req =
          { response := some (send_error 400 "No valid tracks"),
            calls := [], registration := none }) ∧
      (∀ t ts, collectValidTracks resolve items = t :: ts →
        (put_playlist_add_tracks resolve addRes req).calls =
          [.addTracks (t :: ts) index])) ∧
    (items = [] → put_playlist_patch resolve diffFails applyFails p pAfter req =
      { response := some .okEmpty, calls := [], registration := none }) ∧
    (items ≠ [] → collectValidTracks resolve items = [] →
      put_playlist_patch resolve diffFails applyFails p pAfter req =
        { response := some (send_error 400 "No valid tracks"),
          calls := [], registration := none }) ∧
    (∀ t ts, collectValidTracks resolve items = t :: ts → diffFails = false →
      (put_playlist_patch resolve diffFails applyFails p pAfter req).calls =
        [.applyDiff (computeEditScript p.tracks (t :: ts))]) := by
  refine ⟨collectValidTracks_eq_filterMap resolve items, ?_, ?_, ?_, ?_⟩
  · intro hidx
    refine ⟨?_, ?_, ?_⟩
    · rintro rfl
      simp [put_playlist_add_tracks, hidx, hbody, hparse]
    · intro hne hcol
      have hlen : items.length ≠ 0 := by simpa using hne
      simp [put_playlist_add_tracks, hidx, hbody, hparse, hlen, hcol]
    · intro t ts hcol
      have hne : items ≠ [] := by
        intro hx
        rw [hx] at hcol
        cases hcol
      have hlen : items.length ≠ 0 := by simpa using hne
      cases haddr : addRes (t :: ts) index <;>
        simp [put_playlist_add_tracks, hidx, hbody, hparse, hlen, hcol, haddr]
  · rintro rfl
    simp [put_playlist_patch, hbody, hparse]
  · intro hne hcol
    have hlen : items.length ≠ 0 := by simpa using hne
    simp [put_playlist_patch, hbody, hparse, hlen, hcol]
  · intro t ts hcol hdf
    have hne : items ≠ [] := by
      intro hx
      rw [hx] at hcol
      cases hcol
    have hlen : items.length ≠ 0 := by simpa using hne
    cases applyFails <;> cases hpend : pAfter.hasPendingChanges <;>
      simp [put_playlist_patch, hbody, hparse, hlen, hcol, hdf, hpend]

/-- Witness for C10 at a concrete input: of the three entries one is a
number, one fails link resolution, one is a valid track URI; the add handler
proceeds with exactly the one valid track. -/
theorem c10_witness :
    collectValidTracks sampleResolve [.num 1, .str "bad", .str "spotify:track:good"] =
      [⟨"spotify:track:good"⟩] ∧
    (put_playlist_add_tracks sampleResolve (fun _ _ => .ok)
      ⟨some "0", none, 40, some (.arr [.num 1, .str "bad", .str "spotify:track:good"])⟩).calls =
      [.addTracks [⟨"spotify:track:good"⟩] 0] := by
  have h := c10_invalid_entries_skipped sampleResolve (fun _ _ => .ok) false false
    samplePlaylist samplePlaylist
    ⟨some "0", none, 40, some (.arr [.num 1, .str "bad", .str "spotify:track:good"])⟩
    [.num 1, .str "bad", .str "spotify:track:good"] 0 (by decide) rfl
  exact ⟨rfl, (h.2.1 rfl).2.2 ⟨"spotify:track:good"⟩ [] rfl⟩

/-! ### Claim theorems: diff engine and patch flow -/

/-- Helper: diffing a sequence against itself yields the empty script. -/
theorem diffAt_self (A : List SpTrack) : ∀ i, diffAt i A A = [] := by
  induction A with
  | nil => intro i; rw [diffAt.eq_def]
  | cons a as ih =>
    intro i
    rw [diffAt.eq_def]
    simp [ih]

/-- C3 counterexample: a Patch request whose desired sequence is the empty
JSON array does not remove anything — put_playlist_patch short-circuits to
an immediate empty OK reply with no backend call at all, while the playlist
still has an item. -/
theorem c3_counterexample :
    samplePlaylist.tracks ≠ [] ∧
    (put_playlist_patch sampleResolve false false samplePlaylist samplePlaylist
      ⟨none, none, 2, some (.arr [])⟩).response = some .okEmpty ∧
    (put_playlist_patch sampleResolve false false samplePlaylist samplePlaylist
      ⟨none, none, 2, some (.arr [])⟩).calls = [] := by
  exact ⟨by decide, rfl, rfl⟩

/-- C3 (amended): the diff engine satisfies compute(A, A) = [], compute([], B)
is exactly one Insert of all of B (for nonempty B), and compute(A, []) is
exactly one Remove spanning all of A (for nonempty A); however a Patch
request whose desired sequence is the empty array never reaches the diff
engine — it is answered OK immediately, with no backend call, so the current
playlist is left untouched rather than emptied. -/
theorem c3_diff_edge_cases (A B : List SpTrack)
    (resolve : String → Option SpLink) (diffFails applyFails : Bool)
    (p pAfter : SpPlaylist) (req : HttpRequest) :
    computeEditScript A A = [] ∧
    (B ≠ [] → computeEditScript [] B = [.insert 0 B]) ∧
    (A ≠ [] → computeEditScript A [] = [.remove 0 A.length]) ∧
    (req.bodyLen ≠ 0 → req.parsedBody = some (.arr []) →
      put_playlist_patch resolve diffFails applyFails p pAfter req =
        { response := some .okEmpty, calls := [], registration := none }) := by
  refine ⟨diffAt_self A 0, ?_, ?_, ?_⟩
  · intro hB
    cases B with
    | nil => exact absurd rfl hB
    | cons b bs => rw [computeEditScript, diffAt.eq_def]
  · intro hA
    cases A with
    | nil => exact absurd rfl hA
    | cons a as => rw [computeEditScript, diffAt.eq_def]
  · intro hbody hparse
    simp [put_playlist_patch, hbody, hparse]

/-- Witness for C3 at concrete inputs. -/
theorem c3_witness :
    ([⟨"spotify:track:aaa"⟩] : List SpTrack) ≠ [] ∧
    computeEditScript [] [⟨"spotify:track:aaa"⟩] =
      [.insert 0 [⟨"spotify:track:aaa"⟩]] ∧
    computeEditScript [⟨"spotify:track:aaa"⟩] [] = [.remove 0 1] ∧
    put_playlist_patch sampleResolve false false samplePlaylist samplePlaylist
      ⟨none, none, 2, some (.arr [])⟩ =
      { response := some .okEmpty, calls := [], registration := none } := by
  have h := c3_diff_edge_cases [⟨"spotify:track:aaa"⟩] [⟨"spotify:track:aaa"⟩]
    sampleResolve false false samplePlaylist samplePlaylist
    ⟨none, none, 2, some (.arr [])⟩
  exact ⟨by decide, h.2.1 (by decide), h.2.2.1 (by decide), h.2.2.2 (by decide) rfl⟩

/-- C2 counterexample: a concrete patch run in which the desired sequence is
one track (aaa) while the playlist holds another (bbb).  After the apply
step the playlist reports pending changes, so the handler registers the
get_playlist continuation and returns.  When settlement fires, the live
sequence still differs from the desired one (concurrent mutation restored
bbb), yet the continuation replies with the live contents: the response is
emitted although live does not match desired, and nothing recomputes a
fresh edit script — the registered continuation is get_playlist, not the
patch handler. -/
theorem c2_counterexample :
    collectValidTracks sampleResolve [.str "spotify:track:aaa"] =
      [⟨"spotify:track:aaa"⟩] ∧
    (put_playlist_patch sampleResolve false false samplePlaylist
      { samplePlaylist with hasPendingChanges := true }
      ⟨none, none, 21, some (.arr [.str "spotify:track:aaa"])⟩).response = none ∧
    (put_playlist_patch sampleResolve false false samplePlaylist
      { samplePlaylist with hasPendingChanges := true }
      ⟨none, none, 21, some (.arr [.str "spotify:track:aaa"])⟩).registration =
      some .getPlaylist ∧
    samplePlaylist.tracks ≠ [⟨"spotify:track:aaa"⟩] ∧
    settleContinuation .getPlaylist samplePlaylist =
      some (.okJson 200
        [("uri", .str "spotify:playlist:p"), ("title", .str "Test"),
         ("creator", .str "owner"), ("collaborative", .bool false),
         ("tracks", .arr [.str "spotify:track:bbb"])]) := by
  exact ⟨rfl, rfl, rfl, by decide, rfl⟩

/-- C2 (amended): the patch handler produces exactly one response per
request — every control path either responds immediately (input rejection,
diff or apply failure, or no pending changes, in which case the reply holds
the then-current playlist contents) or registers the get_playlist
continuation, which on settlement replies with whatever the playlist
contents are at that moment.  No path recomputes an edit script after
settlement and no path compares the live sequence against the desired one
before responding: the registered continuation is never the patch handler. -/
theorem c2_one_response_no_recompute
    (resolve : String → Option SpLink) (diffFails applyFails : Bool)
    (p pAfter q : SpPlaylist) (req : HttpRequest) :
    (((put_playlist_patch resolve diffFails applyFails p pAfter req).response.isSome ∧
      (put_playlist_patch resolve diffFails applyFails p pAfter req).registration = none) ∨
     ((put_playlist_patch resolve diffFails applyFails p pAfter req).response = none ∧
      (put_playlist_patch resolve diffFails applyFails p pAfter req).registration =
        some .getPlaylist)) ∧
    (put_playlist_patch resolve diffFails applyFails p pAfter req).registration ≠
      some .putPlaylistPatch ∧
    settleContinuation .getPlaylist q = some (get_playlist q) := by
  refine ⟨?_, ?_, rfl⟩
  · unfold put_playlist_patch
    repeat' split
    all_goals simp
  · unfold put_playlist_patch
    repeat' split
    all_goals simp

/-! ### Claim theorems: response shapes -/

/-- C7 counterexample: the success payload of get_playlist carries its item
array under the key tracks; there is no field named items. -/
theorem c7_counterexample :
    responseKeys (get_playlist samplePlaylist) =
      ["uri", "title", "creator", "collaborative", "tracks"] ∧
    "items" ∉ responseKeys (get_playlist samplePlaylist) := by
  exact ⟨rfl, by decide⟩

/-- C7 (amended): for every loaded playlist, the Get response is a 200 JSON
object with exactly the fields uri, title, creator, collaborative (a
boolean) and tracks — the item-URI array, one entry per playlist item in
playlist order; the array field is named tracks, not items. -/
theorem c7_get_playlist_shape (p : SpPlaylist) :
    responseKeys (get_playlist p) =
      ["uri", "title", "creator", "collaborative", "tracks"] ∧
    get_playlist p = .okJson 200
      [("uri", .str p.uri), ("title", .str p.name),
       ("creator", .str p.ownerDisplayName),
       ("collaborative", .bool p.collaborative),
       ("tracks", .arr (p.tracks.map (fun t => .str t.uri)))] ∧
    (p.tracks.map (fun t => Json.str t.uri)).length = p.tracks.length := by
  exact ⟨rfl, rfl, by simp⟩

/-- C8 counterexample: a request with an unknown HTTP method is answered
through evhttp_send_error with a plain 501 and no JSON body at all — it is
not wrapped in the JSON message envelope that send_error produces. -/
theorem c8_counterexample :
    handle_request ⟨fun _ => none, false, false⟩ .delete ["playlist", "x"] =
      .respond (.raw 501 "Not Implemented") ∧
    (Response.raw 501 "Not Implemented").jsonBody = none := by
  exact ⟨rfl, rfl⟩

/-- C8 (amended): every immediate router error produced through send_error
carries a human-readable message wrapped in the JSON envelope (a body with
exactly one message field); the remaining error paths — unknown methods, a
missing or wrong top-level path segment, and the unimplemented
playlist-create route (like the not_implemented action handler) — answer
through evhttp_send_error with a plain-status 501, 400 or 500 response
carrying no JSON envelope. -/
theorem c8_error_envelope (env : RouterEnv) (m : HttpMethod)
    (toks : List String) (r : Response)
    (h : handle_request env m toks = .respond r) :
    (∃ msg, r.jsonBody = some [("message", Json.str msg)]) ∨
    r = .raw 501 "Not Implemented" ∨ r = .raw 400 "Bad Request" ∨
    r = .raw 500 "Not Implemented" := by
  unfold handle_request at h
  repeat' split at h
  all_goals
    first
      | (injection h with h2; subst h2; simp [Response.jsonBody, send_error])
      | simp at h

/-- Witness for C8 at a concrete input: a GET with no path at all is
answered with the plain 400 of the top-level route check. -/
theorem c8_witness :
    handle_request ⟨fun _ => none, false, false⟩ .get [] =
      .respond (.raw 400 "Bad Request") ∧
    ((∃ msg, (Response.raw 400 "Bad Request").jsonBody =
        some [("message", Json.str msg)]) ∨
     Response.raw 400 "Bad Request" = .raw 501 "Not Implemented" ∨
     Response.raw 400 "Bad Request" = .raw 400 "Bad Request" ∨
     Response.raw 400 "Bad Request" = .raw 500 "Not Implemented") :=
  ⟨rfl, c8_error_envelope ⟨fun _ => none, false, false⟩ .get [] _ rfl⟩
